import Mathlib

/-!
Shallow embedding of the real-time messaging/notification subsystem of the
ai-server repository: the socket.io Gateway handlers in `src/index.js`, the
REST message routes in `src/routes/messages.js`, and the REST notification
routes in `src/routes/notifications.js`.

Modelling conventions:
* Mongo documents are Lean structures; a collection is a `List`.
* JS values that may be `undefined` are `Option`s; JS string falsiness
  (`undefined` or `""`) is made explicit.
* `Date` timestamps are `Nat`s supplied by the caller as `now`.
* Mongo `ObjectId`s are `Nat`s assigned at insertion time.
* `updateMany`/`updateOne` with `$set` are list maps / first-match updates;
  `modifiedCount` counts documents whose value actually changes, matching
  MongoDB's behaviour of not counting a no-op `$set` as a modification.
* A socket.io emission is recorded as an `Emit` value; whether a given
  connection receives it is computed from the room-membership table
  (`io.to(room)` reaches every member of the room, `socket.to(room)` every
  member except the originating socket, `socket.emit` only the originator).
-/

set_option maxRecDepth 4000

/-- JS whitespace test for the characters relevant here (model of the
characters `String.prototype.trim` removes). -/
def isWsChar (c : Char) : Bool := c = ' ' || c = '\t' || c = '\n' || c = '\r'

/-- Model of `String.prototype.trim`. -/
def strTrim (s : String) : String :=
  String.mk (((s.data.dropWhile isWsChar).reverse.dropWhile isWsChar).reverse)

/-- Split a character list on a separator character; model of
`String.prototype.split` on a one-character separator (so
`"".split` gives `[""]` and `"a__b".split` gives `["a","","b"]`). -/
def splitCharsOn (sep : Char) : List Char → List (List Char)
  | [] => [[]]
  | c :: rest =>
    let r := splitCharsOn sep rest
    if c = sep then [] :: r
    else
      match r with
      | [] => [[c]]
      | h :: t => (c :: h) :: t

/-- Model of `conversationId.split('_')`. -/
def strSplitOn (s : String) (sep : Char) : List String :=
  (splitCharsOn sep s.data).map String.mk

/-- JS falsiness of a string-or-undefined value (`undefined` and `""` are
falsy, every other string truthy). -/
def strFalsy : Option String → Bool
  | none => true
  | some s => s == ""

/-- JS falsiness of `content?.trim()`: falsy when `content` is `undefined`
or trims to the empty string. -/
def trimFalsy : Option String → Bool
  | none => true
  | some s => strTrim s == ""

/-- `content.substring(0, 100) + (content.length > 100 ? '...' : '')` from
the `send-message` handler in `src/index.js`. -/
def msgPreview (c : String) : String :=
  c.take 100 ++ (if c.length > 100 then "..." else "")

/-- A document of the `users` collection (the fields the messaging
subsystem reads). -/
structure User where
  uid : String
  displayName : Option String
  photoURL : Option String
  deriving Repr, DecidableEq

/-- A document of the `connections` collection (the fields the messaging
subsystem reads). -/
structure Connection where
  senderId : String
  receiverId : String
  status : String
  deriving Repr, DecidableEq

/-- A document of the `messages` collection.  The Gateway inserts messages
without validating the event payload, so the identity and content fields may
be `undefined`; `createdAt`/`updatedAt` are set only by the REST routes. -/
structure Message where
  conversationId : Option String
  senderId : Option String
  receiverId : Option String
  content : Option String
  timestamp : Nat
  read : Bool
  readAt : Option Nat
  createdAt : Option Nat
  updatedAt : Option Nat
  deriving Repr, DecidableEq

/-- A document of the `notifications` collection (`id` models the Mongo
`_id`, assigned at insertion time). -/
structure Notification where
  id : Nat
  userId : Option String
  type : String
  title : String
  message : String
  senderId : Option String
  senderName : String
  senderPhotoURL : Option String
  targetId : Option String
  targetType : Option String
  read : Bool
  readAt : Option Nat
  createdAt : Nat
  deriving Repr, DecidableEq

/-- The collections the messaging subsystem touches. -/
structure DB where
  users : List User
  connections : List Connection
  messages : List Message
  notifications : List Notification
  deriving Repr, DecidableEq

/-- The `onlineUsers` map of `src/index.js` (`userId -> socketId`);
`Map.get` returns the first binding. -/
abbrev OnlineMap := List (String × String)

/-- `onlineUsers.get(key)`. -/
def mapLookup (m : OnlineMap) (k : String) : Option String :=
  (m.find? (fun e => e.1 == k)).map (fun e => e.2)

/-- Room membership table: a pair `(room, socketId)` per joined socket. -/
abbrev Rooms := List (String × String)

/-- Is socket `sid` joined to room `r`? -/
def inRoom (rooms : Rooms) (r sid : String) : Bool :=
  rooms.contains (r, sid)

/-- Room targets may be `undefined` in JS (`io.to(conversationId)` with a
missing payload field); no socket is ever a member of that "room". -/
def inRoomOpt (rooms : Rooms) : Option String → String → Bool
  | some r, sid => inRoom rooms r sid
  | none, _ => false

/-- The payload carried by an outbound socket.io emission. -/
inductive EmitPayload where
  | msg (m : Message)
  | notif (n : Notification)
  | count (k : Nat)
  | err (s : String)
  | readBy (uid : Option String)
  | typing (uid : Option String) (isTyping : Option Bool)
  deriving Repr, DecidableEq

/-- The addressing of an outbound emission: `socket.emit`/`io.to(socketId)`
target one socket, `io.to(room)` targets a whole room, and
`socket.to(room)` targets a room minus the originating socket. -/
inductive EmitTarget where
  | sock (sid : String)
  | room (name : Option String)
  | roomExcept (name : Option String) (self : String)
  deriving Repr, DecidableEq

/-- One outbound socket.io emission. -/
structure Emit where
  target : EmitTarget
  event : String
  payload : EmitPayload
  deriving Repr, DecidableEq

/-- Which sockets a single emission reaches, given the room table. -/
def delivers (rooms : Rooms) (e : Emit) (sid : String) : Bool :=
  match e.target with
  | .sock s => sid == s
  | .room r => inRoomOpt rooms r sid
  | .roomExcept r self => inRoomOpt rooms r sid && !(sid == self)

/-- Does socket `sid` receive an emission named `ev` from the list? -/
def deliversEvent (rooms : Rooms) (emits : List Emit) (ev : String) (sid : String) : Bool :=
  emits.any (fun e => e.event == ev && delivers rooms e sid)

/-- A store access, for tracing which collections a handler touches before
it answers (`read` = find/count, `write` = insert/update/delete). -/
inductive StoreOp where
  | read (coll : String)
  | write (coll : String)
  deriving Repr, DecidableEq

/-- `usersCollection.findOne({ uid })` (an `undefined` uid matches no user
document, since every user document carries a string uid). -/
def findUser (db : DB) (uid : Option String) : Option User :=
  match uid with
  | some u => db.users.find? (fun x => x.uid == u)
  | none => none

/-- `sender?.displayName || 'Someone'` (JS `||` treats the empty string as
falsy). -/
def displayNameOr (u : Option User) : String :=
  match u with
  | some user =>
    match user.displayName with
    | some s => if s == "" then "Someone" else s
    | none => "Someone"
  | none => "Someone"

/-- `getUnreadCount` from `src/index.js`:
`notificationsCollection.countDocuments({ userId, read: false })`. -/
def getUnreadCount (db : DB) (userId : Option String) : Nat :=
  (db.notifications.filter (fun n => n.userId == userId && !n.read)).length

/-- The filter `{ conversationId, receiverId: userId, read: false }` used by
every mark-conversation-read update. -/
def markReadMatch (cid uid : Option String) (m : Message) : Bool :=
  m.conversationId == cid && m.receiverId == uid && !m.read

/-- One document's image under
`updateMany({conversationId, receiverId: userId, read: false},
{$set: {read: true, readAt: now (, updatedAt: now)}})`; the REST
`/mark-read` route additionally sets `updatedAt`. -/
def updMarkRead (cid uid : Option String) (now : Nat) (setUpd : Bool) (m : Message) : Message :=
  if markReadMatch cid uid m then
    if setUpd then { m with read := true, readAt := some now, updatedAt := some now }
    else { m with read := true, readAt := some now }
  else m

/-- The filter `{ userId, read: false }` of the notification bulk update. -/
def markAllMatch (uid : Option String) (n : Notification) : Bool :=
  n.userId == uid && !n.read

/-- One document's image under
`updateMany({userId, read: false}, {$set: {read: true, readAt: now}})`. -/
def updMarkAllNotif (uid : Option String) (now : Nat) (n : Notification) : Notification :=
  if markAllMatch uid n then { n with read := true, readAt := some now } else n

/-- `$set: { read: true, readAt: now }` on a single notification. -/
def updNotifRead (now : Nat) (n : Notification) : Notification :=
  { n with read := true, readAt := some now }

/-- Update the first document matching `p` (Mongo `updateOne`). -/
def updateFirst (p : α → Bool) (f : α → α) : List α → List α
  | [] => []
  | x :: xs => if p x then f x :: xs else x :: updateFirst p f xs

/-- `notifications_${userId}` — the template literal coerces a JS
`undefined` to the string `"undefined"`. -/
def notifRoom : Option String → String
  | some u => "notifications_" ++ u
  | none => "notifications_undefined"

/-- `[userId, partner.uid].sort().join('_')` from
`src/routes/messages.js` line 58: the canonical conversation identifier
(JS `Array.prototype.sort` on two strings keeps them in order when
`a <= b` and swaps them otherwise). -/
def canonicalId (a b : String) : String :=
  String.intercalate "_" (if a ≤ b then [a, b] else [b, a])

/-- The body of a REST `POST /send` request and, equally, the payload of a
Gateway `send-message` event: `{conversationId, senderId, receiverId,
content}`, any field possibly missing. -/
structure SendPayload where
  conversationId : Option String
  senderId : Option String
  receiverId : Option String
  content : Option String
  deriving Repr, DecidableEq

/-- The message document inserted by the Gateway `send-message` handler
(`src/index.js` lines 103-112): payload fields are copied unvalidated. -/
def socketMessageDoc (p : SendPayload) (now : Nat) : Message :=
  { conversationId := p.conversationId
    senderId := p.senderId
    receiverId := p.receiverId
    content := p.content
    timestamp := now
    read := false
    readAt := none
    createdAt := none
    updatedAt := none }

/-- The notification document built by the Gateway `send-message` handler
(`src/index.js` lines 119-131); `idv` models the `_id` Mongo assigns. -/
def socketNotificationDoc (db : DB) (p : SendPayload) (c : String) (now idv : Nat) : Notification :=
  let sender := findUser db p.senderId
  { id := idv
    userId := p.receiverId
    type := "new_message"
    title := "New Message"
    message := msgPreview c
    senderId := p.senderId
    senderName := displayNameOr sender
    senderPhotoURL := sender.bind User.photoURL
    targetId := p.conversationId
    targetType := some "message"
    read := false
    readAt := none
    createdAt := now }

/-- The Gateway `send-message` handler (`src/index.js` lines 98-152).
The message insert happens first; when `content` is missing,
`content.substring(0, 100)` then throws, the `catch` block emits
`message-error` to the originating socket only, and the already-inserted
message stays persisted.  Otherwise the notification is inserted, a direct
`new-notification` (plus a room `notification-count`) goes out only when
the receiver is in `onlineUsers`, `receive-message` goes to the
conversation room via `io.to` (which includes the originating socket when
joined), and `message-sent` goes to the originating socket. -/
def socketSendMessage (db : DB) (online : OnlineMap) (selfSid : String)
    (p : SendPayload) (now : Nat) : DB × List Emit :=
  let message := socketMessageDoc p now
  let db1 := { db with messages := db.messages ++ [message] }
  match p.content with
  | none =>
    (db1, [⟨.sock selfSid, "message-error", .err "Failed to send message"⟩])
  | some c =>
    let notification := socketNotificationDoc db p c now db.notifications.length
    let db2 := { db1 with notifications := db1.notifications ++ [notification] }
    let directEmits : List Emit :=
      match p.receiverId with
      | none => []
      | some rid =>
        match mapLookup online rid with
        | none => []
        | some rsid =>
          [⟨.sock rsid, "new-notification", .notif notification⟩,
           ⟨.room (some (notifRoom (some rid))), "notification-count",
            .count (getUnreadCount db2 (some rid))⟩]
    (db2,
     directEmits ++
       [⟨.room p.conversationId, "receive-message", .msg message⟩,
        ⟨.sock selfSid, "message-sent", .msg message⟩])

/-- The Gateway `typing` handler (`src/index.js` lines 155-161):
`socket.to(conversationId)` excludes the originating socket. -/
def socketTyping (selfSid : String) (conversationId userId : Option String)
    (isTyping : Option Bool) : List Emit :=
  [⟨.roomExcept conversationId selfSid, "user-typing", .typing userId isTyping⟩]

/-- The Gateway `mark-read` handler (`src/index.js` lines 164-183): no
validation and no authorization check; one `updateMany` over the messages
collection, then `messages-read` to the room minus the originator. -/
def socketMarkRead (db : DB) (selfSid : String) (conversationId userId : Option String)
    (now : Nat) : DB × List Emit :=
  ({ db with messages := db.messages.map (updMarkRead conversationId userId now false) },
   [⟨.roomExcept conversationId selfSid, "messages-read", .readBy userId⟩])

/-- The Gateway `mark-all-notifications-read` handler (`src/index.js`
lines 203-217): bulk update, then a hard-coded count of `0` emitted to the
user's private notification room. -/
def socketMarkAllNotificationsRead (db : DB) (userId : Option String) (now : Nat) :
    DB × List Emit :=
  ({ db with notifications := db.notifications.map (updMarkAllNotif userId now) },
   [⟨.room (some (notifRoom userId)), "notification-count", .count 0⟩])

/-- `![user1Id, user2Id].includes(userId)` guard of
`GET /conversation/:conversationId` (`src/routes/messages.js` lines
118-124): the conversation id is split on `_` and the caller's `userId`
query parameter (possibly absent) is compared against the first two parts. -/
def convAuth (conversationId : String) (userId : Option String) : Bool :=
  let parts := strSplitOn conversationId '_'
  parts[0]? == userId || parts[1]? == userId

/-- Result of `GET /conversation/:conversationId`. -/
structure GetConvResult where
  db : DB
  status : Nat
  success : Bool
  messages : List Message
  trace : List StoreOp
  deriving Repr, DecidableEq

/-- Stable insertion into a timestamp-descending list (model of the
`sort({timestamp: -1})` Mongo sort used by the history query). -/
def insertTsDesc (m : Message) : List Message → List Message
  | [] => [m]
  | x :: xs => if m.timestamp ≤ x.timestamp then x :: insertTsDesc m xs else m :: x :: xs

/-- Sort messages by timestamp, newest first. -/
def sortTsDesc : List Message → List Message
  | [] => []
  | x :: xs => insertTsDesc x (sortTsDesc xs)

/-- `GET /conversation/:conversationId` (`src/routes/messages.js` lines
110-169): reject a non-participant with 403 before touching any store;
otherwise fetch the page (filter by conversation and `timestamp < before`,
newest first, `limit`, then reversed to chronological order) and, when a
truthy `userId` was supplied, additionally mark that user's unread messages
in the conversation as read — a write performed by a GET. -/
def getConversationMessages (db : DB) (conversationId : String) (userId : Option String)
    (limit before now : Nat) : GetConvResult :=
  if !convAuth conversationId userId then
    ⟨db, 403, false, [], []⟩
  else
    let page :=
      ((sortTsDesc (db.messages.filter
          (fun m => m.conversationId == some conversationId && decide (m.timestamp < before)))).take
        limit).reverse
    match userId with
    | some uid =>
      if uid == "" then ⟨db, 200, true, page, [.read "messages"]⟩
      else
        ⟨{ db with messages :=
             db.messages.map (updMarkRead (some conversationId) (some uid) now false) },
         200, true, page, [.read "messages", .write "messages"]⟩
    | none => ⟨db, 200, true, page, [.read "messages"]⟩

/-- `!conversationId || !senderId || !receiverId || !content?.trim()` —
the required-field validation of `POST /send`. -/
def validSendBody (b : SendPayload) : Bool :=
  !(strFalsy b.conversationId || strFalsy b.senderId || strFalsy b.receiverId ||
    trimFalsy b.content)

/-- `!user1Id || !user2Id || user1Id === user2Id` — the conversation-id
format validation of `POST /send`. -/
def validConvFormat : Option String → Bool
  | none => false
  | some c =>
    let parts := strSplitOn c '_'
    !(strFalsy parts[0]? || strFalsy parts[1]? || parts[0]? == parts[1]?)

/-- `connectionsCollection.findOne({$or: [{senderId, receiverId},
{senderId: receiverId, receiverId: senderId}], status: 'accepted'})`. -/
def isConnected (db : DB) (a b : Option String) : Bool :=
  db.connections.any (fun c =>
    ((some c.senderId == a && some c.receiverId == b) ||
     (some c.senderId == b && some c.receiverId == a)) && c.status == "accepted")

/-- The message document inserted by REST `POST /send`
(`src/routes/messages.js` lines 223-232). -/
def restMessageDoc (b : SendPayload) (now : Nat) : Message :=
  { conversationId := b.conversationId
    senderId := b.senderId
    receiverId := b.receiverId
    content := b.content.map strTrim
    timestamp := now
    read := false
    readAt := none
    createdAt := some now
    updatedAt := some now }

/-- Result of REST `POST /send`. -/
structure SendResult where
  db : DB
  status : Nat
  success : Bool
  trace : List StoreOp
  deriving Repr, DecidableEq

/-- `POST /send` (`src/routes/messages.js` lines 172-250): field and
format validation answer 400 with no store access; then the two user
lookups run (store reads), answering 404 when either is missing; then the
connection lookup runs (another read), answering 403 when the pair is not
an accepted connection; only then is the message inserted. -/
def postSend (db : DB) (b : SendPayload) (now : Nat) : SendResult :=
  if !validSendBody b then ⟨db, 400, false, []⟩
  else if !validConvFormat b.conversationId then ⟨db, 400, false, []⟩
  else
    let sender := findUser db b.senderId
    let receiver := findUser db b.receiverId
    if sender.isNone || receiver.isNone then
      ⟨db, 404, false, [.read "users", .read "users"]⟩
    else if !isConnected db b.senderId b.receiverId then
      ⟨db, 403, false, [.read "users", .read "users", .read "connections"]⟩
    else
      ⟨{ db with messages := db.messages ++ [restMessageDoc b now] }, 201, true,
       [.read "users", .read "users", .read "connections", .write "messages"]⟩

/-- Result of REST `POST /mark-read` and `PUT /mark-all-read/:userId`. -/
structure MarkReadResult where
  db : DB
  status : Nat
  success : Bool
  modifiedCount : Nat
  deriving Repr, DecidableEq

/-- `POST /mark-read` (`src/routes/messages.js` lines 253-292): 400 when
either field is falsy, otherwise one `updateMany` whose `modifiedCount` is
the number of matched documents (each matched document flips `read` from
false to true, so matched and modified coincide). -/
def postMarkRead (db : DB) (conversationId userId : Option String) (now : Nat) :
    MarkReadResult :=
  if strFalsy conversationId || strFalsy userId then ⟨db, 400, false, 0⟩
  else
    ⟨{ db with messages := db.messages.map (updMarkRead conversationId userId now true) },
     200, true, (db.messages.filter (markReadMatch conversationId userId)).length⟩

/-- `PUT /mark-all-read/:userId` (`src/routes/notifications.js` lines
129-151): one `updateMany` over the user's unread notifications. -/
def putMarkAllRead (db : DB) (userId : String) (now : Nat) : MarkReadResult :=
  ⟨{ db with notifications := db.notifications.map (updMarkAllNotif (some userId) now) },
   200, true, (db.notifications.filter (markAllMatch (some userId))).length⟩

/-- Result of REST `PUT /mark-read/:notificationId`. -/
structure NotifMarkResult where
  db : DB
  status : Nat
  success : Bool
  unreadCount : Nat
  deriving Repr, DecidableEq

/-- The filter `{ _id: notificationId, userId }` of the single-notification
update. -/
def notifOwnMatch (notificationId : Nat) (userId : Option String) (n : Notification) : Bool :=
  n.id == notificationId && n.userId == userId

/-- `modifiedCount` of `updateOne({_id, userId}, {$set: {read: true,
readAt: now}})`: 1 exactly when a document matches and the `$set` changes
its value (Mongo does not count an identical rewrite as a modification). -/
def markNotifModified (db : DB) (notificationId : Nat) (userId : Option String)
    (now : Nat) : Nat :=
  match db.notifications.find? (notifOwnMatch notificationId userId) with
  | none => 0
  | some n => if updNotifRead now n = n then 0 else 1

/-- `PUT /mark-read/:notificationId` (`src/routes/notifications.js` lines
84-126): run the `updateOne`, answer 404 whenever `modifiedCount === 0`,
otherwise recompute and return the unread count. -/
def putMarkNotificationRead (db : DB) (notificationId : Nat) (userId : Option String)
    (now : Nat) : NotifMarkResult :=
  let upd := updateFirst (notifOwnMatch notificationId userId) (updNotifRead now) db.notifications
  let db2 := { db with notifications := upd }
  if markNotifModified db notificationId userId now = 0 then ⟨db2, 404, false, 0⟩
  else ⟨db2, 200, true, getUnreadCount db2 userId⟩

/-! ## Helper lemmas -/

theorem markReadMatch_updMarkRead (cid uid : Option String) (now : Nat) (su : Bool)
    (m : Message) : markReadMatch cid uid (updMarkRead cid uid now su m) = false := by
  unfold updMarkRead
  by_cases h : markReadMatch cid uid m = true
  · rw [if_pos h]
    cases su <;> simp [markReadMatch]
  · rw [if_neg h]
    exact Bool.eq_false_iff.mpr h

theorem filter_markReadMatch_updMarkRead (l : List Message) (cid uid : Option String)
    (now : Nat) (su : Bool) :
    (l.map (updMarkRead cid uid now su)).filter (markReadMatch cid uid) = [] := by
  induction l with
  | nil => rfl
  | cons m t ih => simp [List.filter_cons, markReadMatch_updMarkRead, ih]

theorem markAllMatch_updMarkAllNotif (uid : Option String) (now : Nat) (n : Notification) :
    markAllMatch uid (updMarkAllNotif uid now n) = false := by
  unfold updMarkAllNotif
  by_cases h : markAllMatch uid n = true
  · rw [if_pos h]
    simp [markAllMatch]
  · rw [if_neg h]
    exact Bool.eq_false_iff.mpr h

theorem filter_markAllMatch_updMarkAllNotif (l : List Notification) (uid : Option String)
    (now : Nat) :
    (l.map (updMarkAllNotif uid now)).filter (markAllMatch uid) = [] := by
  induction l with
  | nil => rfl
  | cons n t ih => simp [List.filter_cons, markAllMatch_updMarkAllNotif, ih]

/-! ## C4 -/

/-- C4: for every pair of user identities, the canonical conversation
identifier — the two identities sorted lexicographically and joined with
the fixed separator `_`, as computed in `src/routes/messages.js` — is
independent of argument order. -/
theorem c4_canonicalId_comm (a b : String) : canonicalId a b = canonicalId b a := by
  unfold canonicalId
  by_cases h1 : a ≤ b
  · by_cases h2 : b ≤ a
    · have hab : a = b := le_antisymm h1 h2
      subst hab
      rfl
    · rw [if_pos h1, if_neg h2]
  · by_cases h2 : b ≤ a
    · rw [if_neg h1, if_pos h2]
    · rcases le_total a b with h | h
      · exact absurd h h1
      · exact absurd h h2

/-! ## C1 -/

/-- C1 counterexample: socket `"s1"` originates a `send-message` event
while joined to room `"a_b"`.  The handler broadcasts `receive-message`
with `io.to(conversationId)`, which includes the originating socket, so
`"s1"` does receive `receive-message` — contradicting the claim that the
originating connection receives only the `message-sent` confirmation. -/
theorem c1_counterexample :
    deliversEvent [("a_b", "s1"), ("a_b", "s2")]
      (socketSendMessage ⟨[], [], [], []⟩ [] "s1"
        ⟨some "a_b", some "a", some "b", some "hi"⟩ 0).2
      "receive-message" "s1" = true := by decide

/-- C1 (amended): for every `send-message` event carrying a content string,
the `receive-message` broadcast reaches exactly the connections joined to
the conversation room — including the originating connection whenever it is
joined — and the `message-sent` confirmation reaches exactly the
originating connection. -/
theorem c1_room_broadcast_includes_sender (db : DB) (online : OnlineMap) (rooms : Rooms)
    (selfSid : String) (p : SendPayload) (now : Nat) (c : String)
    (h : p.content = some c) :
    (∀ sid, deliversEvent rooms (socketSendMessage db online selfSid p now).2
        "receive-message" sid = inRoomOpt rooms p.conversationId sid) ∧
    (∀ sid, deliversEvent rooms (socketSendMessage db online selfSid p now).2
        "message-sent" sid = (sid == selfSid)) := by
  simp only [socketSendMessage, h]
  cases hr : p.receiverId with
  | none =>
    constructor <;> intro sid <;> simp [deliversEvent, delivers, hr]
  | some rid =>
    cases hl : mapLookup online rid with
    | none =>
      constructor <;> intro sid <;> simp [deliversEvent, delivers, hr, hl]
    | some rsid =>
      constructor <;> intro sid <;> simp [deliversEvent, delivers, hr, hl]

/-- Witness for C1 at a concrete input: with sockets `"s1"` (originator)
and `"s2"` both joined to room `"a_b"`, the other member `"s2"` receives
the `receive-message` broadcast. -/
theorem c1_witness :
    deliversEvent [("a_b", "s1"), ("a_b", "s2")]
      (socketSendMessage ⟨[], [], [], []⟩ [] "s1"
        ⟨some "a_b", some "a", some "b", some "hi"⟩ 0).2
      "receive-message" "s2" = true := by
  have h := (c1_room_broadcast_includes_sender ⟨[], [], [], []⟩ [] [("a_b", "s1"), ("a_b", "s2")]
    "s1" ⟨some "a_b", some "a", some "b", some "hi"⟩ 0 "hi" rfl).1 "s2"
  rw [h]
  decide

/-! ## C2 -/

/-- C2 counterexample: users `"a"` and `"b"` exist but are not connected,
so `POST /send` rejects the request with the authorization error 403 —
yet only after two reads of the users store and one read of the
connections store, contradicting "rejected before any store access". -/
theorem c2_counterexample :
    (postSend ⟨[⟨"a", none, none⟩, ⟨"b", none, none⟩], [], [], []⟩
       ⟨some "a_b", some "a", some "b", some "hi"⟩ 0).status = 403 ∧
    (postSend ⟨[⟨"a", none, none⟩, ⟨"b", none, none⟩], [], [], []⟩
       ⟨some "a_b", some "a", some "b", some "hi"⟩ 0).trace ≠ [] := by decide

/-- C2 (amended): `GET /conversation/:conversationId` rejects a
non-participant with 403 before any store access; `POST /send` rejects a
sender who is not an accepted connection of the receiver with 403 before
any store write, but only after reading the users store twice and the
connections store once; the Gateway `mark-read` event performs no
authorization rejection at all — its update filter merely confines the
write to messages addressed to the acting user, leaving every message
addressed to anyone else unchanged. -/
theorem c2_authorization_store_access (db : DB) (cid : String) (uidq : Option String)
    (limit before now : Nat) (b : SendPayload) (scid suid : Option String)
    (selfSid : String) :
    (convAuth cid uidq = false →
      getConversationMessages db cid uidq limit before now = ⟨db, 403, false, [], []⟩) ∧
    (validSendBody b = true → validConvFormat b.conversationId = true →
      (findUser db b.senderId).isSome = true → (findUser db b.receiverId).isSome = true →
      isConnected db b.senderId b.receiverId = false →
      postSend db b now = ⟨db, 403, false, [.read "users", .read "users", .read "connections"]⟩) ∧
    (∀ i : Nat, ∀ m : Message, db.messages[i]? = some m → m.receiverId ≠ suid →
      (socketMarkRead db selfSid scid suid now).1.messages[i]? = some m) := by
  refine ⟨fun ha => ?_, fun hv hf hs hr hc => ?_, fun i m hm hne => ?_⟩
  · simp [getConversationMessages, ha]
  · simp [postSend, hv, hf, hc]
    cases hds : findUser db b.senderId with
    | none => rw [hds] at hs; simp at hs
    | some su =>
      cases hdr : findUser db b.receiverId with
      | none => rw [hdr] at hr; simp at hr
      | some ru => simp
  · have hmsg : (socketMarkRead db selfSid scid suid now).1.messages =
        db.messages.map (updMarkRead scid suid now false) := rfl
    rw [hmsg, List.getElem?_map, hm]
    have hmm : markReadMatch scid suid m = false := by
      simp [markReadMatch]
      intro h1 h2
      exact absurd h2 hne
    simp [updMarkRead, hmm]

/-- Witness for C2 at concrete inputs: a non-participant `GET` is refused
with an empty access trace; the unconnected `POST /send` of the
counterexample is refused after three reads and no write; a Gateway
`mark-read` by user `"b"` leaves a message addressed to `"a"` unchanged. -/
theorem c2_witness :
    getConversationMessages ⟨[], [], [], []⟩ "a_b" (some "c") 50 10 10 =
      ⟨⟨[], [], [], []⟩, 403, false, [], []⟩ ∧
    postSend ⟨[⟨"a", none, none⟩, ⟨"b", none, none⟩], [], [], []⟩
      ⟨some "a_b", some "a", some "b", some "hi"⟩ 0 =
      ⟨⟨[⟨"a", none, none⟩, ⟨"b", none, none⟩], [], [], []⟩, 403, false,
       [.read "users", .read "users", .read "connections"]⟩ ∧
    (socketMarkRead
        ⟨[], [], [⟨some "a_b", some "b", some "a", some "hi", 3, false, none, none, none⟩], []⟩
        "s1" (some "a_b") (some "b") 9).1.messages[0]? =
      some ⟨some "a_b", some "b", some "a", some "hi", 3, false, none, none, none⟩ := by
  refine ⟨?_, ?_, ?_⟩
  · exact (c2_authorization_store_access ⟨[], [], [], []⟩ "a_b" (some "c") 50 10 10
      ⟨none, none, none, none⟩ none none "s").1 (by decide)
  · exact (c2_authorization_store_access ⟨[⟨"a", none, none⟩, ⟨"b", none, none⟩], [], [], []⟩
      "x" none 0 0 0 ⟨some "a_b", some "a", some "b", some "hi"⟩ none none "s").2.1
      (by decide) (by decide) (by decide) (by decide) (by decide)
  · exact (c2_authorization_store_access
      ⟨[], [], [⟨some "a_b", some "b", some "a", some "hi", 3, false, none, none, none⟩], []⟩
      "x" none 0 0 9 ⟨none, none, none, none⟩ (some "a_b") (some "b") "s1").2.2 0
      ⟨some "a_b", some "b", some "a", some "hi", 3, false, none, none, none⟩
      (by decide) (by decide)

/-! ## C3 -/

/-- C3 counterexample: a Gateway `send-message` payload lacking `content`
is not rejected up front — the Message document is inserted first, and only
then does the handler fail (at `content.substring`) and emit
`message-error`.  One Message has been persisted: a partial write. -/
theorem c3_counterexample :
    (socketSendMessage ⟨[], [], [], []⟩ [] "s1"
       ⟨some "a_b", some "a", some "b", none⟩ 0).1.messages.length = 1 ∧
    (socketSendMessage ⟨[], [], [], []⟩ [] "s1"
       ⟨some "a_b", some "a", some "b", none⟩ 0).2 =
      [⟨.sock "s1", "message-error", .err "Failed to send message"⟩] := by decide

/-- C3 (amended): REST `POST /send` rejects a body with a missing required
field immediately with 400 and performs no store access and no write.  The
Gateway `send-message` event, however, performs no validation: it inserts
the Message document unconditionally; a payload lacking `content` then
throws while building the notification preview, so the handler emits
`message-error` to the originating socket only after the Message was
persisted — a partial write in which no Notification is inserted. -/
theorem c3_validation_no_partial_write (db : DB) (b : SendPayload) (now : Nat)
    (online : OnlineMap) (selfSid : String) (p : SendPayload) :
    (validSendBody b = false → postSend db b now = ⟨db, 400, false, []⟩) ∧
    (p.content = none →
      (socketSendMessage db online selfSid p now).1.messages =
        db.messages ++ [socketMessageDoc p now] ∧
      (socketSendMessage db online selfSid p now).1.notifications = db.notifications ∧
      (socketSendMessage db online selfSid p now).2 =
        [⟨.sock selfSid, "message-error", .err "Failed to send message"⟩]) := by
  refine ⟨fun hv => ?_, fun hc => ?_⟩
  · simp [postSend, hv]
  · simp [socketSendMessage, hc]

/-- Witness for C3 at concrete inputs: a `POST /send` body with no
`senderId` is refused with 400 and no trace, and a Gateway payload with no
`content` leaves exactly the inserted Message and no notification behind. -/
theorem c3_witness :
    postSend ⟨[], [], [], []⟩ ⟨some "a_b", none, some "b", some "hi"⟩ 5 =
      ⟨⟨[], [], [], []⟩, 400, false, []⟩ ∧
    (socketSendMessage ⟨[], [], [], []⟩ [] "s1"
       ⟨some "a_b", some "a", some "b", none⟩ 0).1.notifications = [] := by
  refine ⟨?_, ?_⟩
  · exact (c3_validation_no_partial_write ⟨[], [], [], []⟩
      ⟨some "a_b", none, some "b", some "hi"⟩ 5 [] "s" ⟨none, none, none, none⟩).1 (by decide)
  · exact ((c3_validation_no_partial_write ⟨[], [], [], []⟩ ⟨none, none, none, none⟩ 0 [] "s1"
      ⟨some "a_b", some "a", some "b", none⟩).2 (by decide)).2.1

/-! ## C5 -/

/-- C5: a `send-message` event whose receiver has no entry in the
`onlineUsers` presence map produces no direct emit at all — the outbound
emissions are exactly the `receive-message` room broadcast and the
`message-sent` confirmation to the originating socket — while the
Notification document is still appended to the notification store
(store-and-forward). -/
theorem c5_offline_receiver_store_and_forward (db : DB) (online : OnlineMap)
    (selfSid : String) (p : SendPayload) (now : Nat) (c rid : String)
    (hc : p.content = some c) (hr : p.receiverId = some rid)
    (hl : mapLookup online rid = none) :
    (socketSendMessage db online selfSid p now).2.map (fun e => (e.target, e.event)) =
      [(.room p.conversationId, "receive-message"), (.sock selfSid, "message-sent")] ∧
    (socketSendMessage db online selfSid p now).1.notifications =
      db.notifications ++ [socketNotificationDoc db p c now db.notifications.length] := by
  simp [socketSendMessage, hc, hr, hl]

/-- Witness for C5 at a concrete input: user `"x"` is online but receiver
`"b"` is not; the emissions are only the room broadcast and the sender
confirmation, and the notification for `"b"` is persisted. -/
theorem c5_witness :
    (socketSendMessage ⟨[], [], [], []⟩ [("x", "s9")] "s1"
       ⟨some "a_b", some "a", some "b", some "hi"⟩ 4).2.map (fun e => (e.target, e.event)) =
      [(.room (some "a_b"), "receive-message"), (.sock "s1", "message-sent")] ∧
    (socketSendMessage ⟨[], [], [], []⟩ [("x", "s9")] "s1"
       ⟨some "a_b", some "a", some "b", some "hi"⟩ 4).1.notifications =
      [socketNotificationDoc ⟨[], [], [], []⟩ ⟨some "a_b", some "a", some "b", some "hi"⟩
        "hi" 4 0] :=
  c5_offline_receiver_store_and_forward ⟨[], [], [], []⟩ [("x", "s9")] "s1"
    ⟨some "a_b", some "a", some "b", some "hi"⟩ 4 "hi" "b" rfl rfl (by decide)

/-! ## C6 -/

/-- C6: marking a conversation read — via the Gateway `mark-read` event or
via REST `POST /mark-read` — turns every previously-unread message of that
conversation addressed to the requesting user into `read = true` with
`readAt = now`, and leaves every message addressed to anyone else (in
particular the other participant) exactly unchanged. -/
theorem c6_mark_read_frame (db : DB) (cid uid selfSid : String) (now : Nat)
    (hcid : cid ≠ "") (huid : uid ≠ "") :
    ∀ i : Nat, ∀ m : Message, db.messages[i]? = some m →
      ((m.conversationId = some cid → m.receiverId = some uid → m.read = false →
        (socketMarkRead db selfSid (some cid) (some uid) now).1.messages[i]? =
          some { m with read := true, readAt := some now } ∧
        (postMarkRead db (some cid) (some uid) now).db.messages[i]? =
          some { m with read := true, readAt := some now, updatedAt := some now }) ∧
       (m.receiverId ≠ some uid →
        (socketMarkRead db selfSid (some cid) (some uid) now).1.messages[i]? = some m ∧
        (postMarkRead db (some cid) (some uid) now).db.messages[i]? = some m)) := by
  intro i m hm
  have hsock : (socketMarkRead db selfSid (some cid) (some uid) now).1.messages =
      db.messages.map (updMarkRead (some cid) (some uid) now false) := rfl
  have hrest : (postMarkRead db (some cid) (some uid) now).db.messages =
      db.messages.map (updMarkRead (some cid) (some uid) now true) := by
    simp [postMarkRead, strFalsy, hcid, huid]
  refine ⟨fun h1 h2 h3 => ?_, fun hne => ?_⟩
  · have hmm : markReadMatch (some cid) (some uid) m = true := by
      simp [markReadMatch, h1, h2, h3]
    rw [hsock, hrest, List.getElem?_map, List.getElem?_map, hm]
    simp [updMarkRead, hmm]
  · have hmm : markReadMatch (some cid) (some uid) m = false := by
      simp [markReadMatch]
      intro h1 h2
      exact absurd h2 hne
    rw [hsock, hrest, List.getElem?_map, List.getElem?_map, hm]
    simp [updMarkRead, hmm]

/-- Witness for C6 at a concrete input: in a conversation holding one
unread message addressed to `"b"` and one addressed to `"a"`, user `"b"`
marking the conversation read flips only the first (stamping `readAt`),
and the REST path leaves the message addressed to `"a"` unchanged. -/
theorem c6_witness :
    (socketMarkRead
        ⟨[], [], [⟨some "a_b", some "a", some "b", some "hi", 1, false, none, none, none⟩,
                  ⟨some "a_b", some "b", some "a", some "yo", 2, false, none, none, none⟩], []⟩
        "s1" (some "a_b") (some "b") 7).1.messages[0]? =
      some ⟨some "a_b", some "a", some "b", some "hi", 1, true, some 7, none, none⟩ ∧
    (postMarkRead
        ⟨[], [], [⟨some "a_b", some "a", some "b", some "hi", 1, false, none, none, none⟩,
                  ⟨some "a_b", some "b", some "a", some "yo", 2, false, none, none, none⟩], []⟩
        (some "a_b") (some "b") 7).db.messages[1]? =
      some ⟨some "a_b", some "b", some "a", some "yo", 2, false, none, none, none⟩ := by
  refine ⟨?_, ?_⟩
  · exact ((c6_mark_read_frame
      ⟨[], [], [⟨some "a_b", some "a", some "b", some "hi", 1, false, none, none, none⟩,
                ⟨some "a_b", some "b", some "a", some "yo", 2, false, none, none, none⟩], []⟩
      "a_b" "b" "s1" 7 (by decide) (by decide) 0
      ⟨some "a_b", some "a", some "b", some "hi", 1, false, none, none, none⟩ rfl).1
      rfl rfl rfl).1
  · exact ((c6_mark_read_frame
      ⟨[], [], [⟨some "a_b", some "a", some "b", some "hi", 1, false, none, none, none⟩,
                ⟨some "a_b", some "b", some "a", some "yo", 2, false, none, none, none⟩], []⟩
      "a_b" "b" "s1" 7 (by decide) (by decide) 1
      ⟨some "a_b", some "b", some "a", some "yo", 2, false, none, none, none⟩ rfl).2
      (by decide)).2

/-! ## C7 -/

/-- C7: after mark-all-notifications-read — via the Gateway event, which
emits the count `0` to the user's private notification room, or via REST
`PUT /mark-all-read/:userId` — the independently recomputed
`countDocuments({userId, read: false})` over the notification store is 0. -/
theorem c7_mark_all_notifications_zero (db : DB) (uid : String) (now : Nat) :
    (socketMarkAllNotificationsRead db (some uid) now).2 =
      [⟨.room (some (notifRoom (some uid))), "notification-count", .count 0⟩] ∧
    getUnreadCount (socketMarkAllNotificationsRead db (some uid) now).1 (some uid) = 0 ∧
    getUnreadCount (putMarkAllRead db uid now).db (some uid) = 0 := by
  refine ⟨rfl, ?_, ?_⟩
  · show ((db.notifications.map (updMarkAllNotif (some uid) now)).filter
      (fun n => n.userId == some uid && !n.read)).length = 0
    rw [show (fun n : Notification => n.userId == some uid && !n.read) =
      markAllMatch (some uid) from rfl]
    rw [filter_markAllMatch_updMarkAllNotif]
    rfl
  · show ((db.notifications.map (updMarkAllNotif (some uid) now)).filter
      (fun n => n.userId == some uid && !n.read)).length = 0
    rw [show (fun n : Notification => n.userId == some uid && !n.read) =
      markAllMatch (some uid) from rfl]
    rw [filter_markAllMatch_updMarkAllNotif]
    rfl

/-! ## C8 -/

/-- C8: REST `POST /mark-read` is idempotent — after one mark-read call
for a conversation and user, an identical second call still answers 200
with `success: true` and reports `modifiedCount = 0`, because no message
matching `{conversationId, receiverId: userId, read: false}` remains. -/
theorem c8_mark_read_idempotent (db : DB) (cid uid : String) (now1 now2 : Nat)
    (hcid : cid ≠ "") (huid : uid ≠ "") :
    (postMarkRead (postMarkRead db (some cid) (some uid) now1).db
        (some cid) (some uid) now2).status = 200 ∧
    (postMarkRead (postMarkRead db (some cid) (some uid) now1).db
        (some cid) (some uid) now2).success = true ∧
    (postMarkRead (postMarkRead db (some cid) (some uid) now1).db
        (some cid) (some uid) now2).modifiedCount = 0 := by
  simp [postMarkRead, strFalsy, hcid, huid, filter_markReadMatch_updMarkRead]

/-- Witness for C8 at a concrete input: one unread message for `"b"` in
conversation `"a_b"`; the second identical mark-read call succeeds and
modifies zero documents. -/
theorem c8_witness :
    (postMarkRead (postMarkRead
        ⟨[], [], [⟨some "a_b", some "a", some "b", some "hi", 1, false, none, none, none⟩], []⟩
        (some "a_b") (some "b") 5).db (some "a_b") (some "b") 6).success = true ∧
    (postMarkRead (postMarkRead
        ⟨[], [], [⟨some "a_b", some "a", some "b", some "hi", 1, false, none, none, none⟩], []⟩
        (some "a_b") (some "b") 5).db (some "a_b") (some "b") 6).modifiedCount = 0 := by
  have h := c8_mark_read_idempotent
    ⟨[], [], [⟨some "a_b", some "a", some "b", some "hi", 1, false, none, none, none⟩], []⟩
    "a_b" "b" 5 6 (by decide) (by decide)
  exact ⟨h.2.1, h.2.2⟩

/-! ## C9 -/

/-- C9: `GET /conversation/:conversationId` is not read-only.  When a
(participant) `userId` query parameter is supplied, the fetch answers 200,
its store trace contains a write to the messages collection, and every
previously-unread message of the conversation addressed to that user ends
up `read = true` with `readAt` stamped — a side effect of the fetch. -/
theorem c9_get_conversation_marks_read (db : DB) (cid uid : String) (limit before now : Nat)
    (huid : uid ≠ "") (ha : convAuth cid (some uid) = true) :
    (getConversationMessages db cid (some uid) limit before now).status = 200 ∧
    (getConversationMessages db cid (some uid) limit before now).trace =
      [.read "messages", .write "messages"] ∧
    (∀ i : Nat, ∀ m : Message, db.messages[i]? = some m →
      m.conversationId = some cid → m.receiverId = some uid → m.read = false →
      (getConversationMessages db cid (some uid) limit before now).db.messages[i]? =
        some { m with read := true, readAt := some now }) := by
  have hmain : getConversationMessages db cid (some uid) limit before now =
      ⟨{ db with messages := db.messages.map (updMarkRead (some cid) (some uid) now false) },
       200, true,
       ((sortTsDesc (db.messages.filter
          (fun m => m.conversationId == some cid && decide (m.timestamp < before)))).take
            limit).reverse,
       [.read "messages", .write "messages"]⟩ := by
    simp [getConversationMessages, ha, huid]
  refine ⟨by rw [hmain], by rw [hmain], fun i m hm h1 h2 h3 => ?_⟩
  rw [hmain]
  show (db.messages.map (updMarkRead (some cid) (some uid) now false))[i]? = _
  rw [List.getElem?_map, hm]
  have hmm : markReadMatch (some cid) (some uid) m = true := by
    simp [markReadMatch, h1, h2, h3]
  simp [updMarkRead, hmm]

/-- Witness for C9 at a concrete input: participant `"b"` fetching
conversation `"a_b"` gets a 200 whose trace includes the write, and the
stored unread message addressed to `"b"` comes out marked read. -/
theorem c9_witness :
    (getConversationMessages
        ⟨[], [], [⟨some "a_b", some "a", some "b", some "hi", 1, false, none, none, none⟩], []⟩
        "a_b" (some "b") 50 10 9).status = 200 ∧
    (getConversationMessages
        ⟨[], [], [⟨some "a_b", some "a", some "b", some "hi", 1, false, none, none, none⟩], []⟩
        "a_b" (some "b") 50 10 9).db.messages[0]? =
      some ⟨some "a_b", some "a", some "b", some "hi", 1, true, some 9, none, none⟩ := by
  have h := c9_get_conversation_marks_read
    ⟨[], [], [⟨some "a_b", some "a", some "b", some "hi", 1, false, none, none, none⟩], []⟩
    "a_b" "b" 50 10 9 (by decide) (by decide)
  exact ⟨h.1, h.2.2 0 ⟨some "a_b", some "a", some "b", some "hi", 1, false, none, none, none⟩
    rfl rfl rfl rfl⟩

/-! ## C10 -/

/-- C10 counterexample: notification `0` belongs to `"u"` and is already
read (`readAt = 5`).  Re-marking it at time `6` rewrites `readAt`, so the
`updateOne` modifies one document and the endpoint answers 200 with
`success: true` — not the 404 error the claim asserts for the
already-read case. -/
theorem c10_counterexample :
    (putMarkNotificationRead
       ⟨[], [], [], [⟨0, some "u", "new_message", "New Message", "hi", some "a", "Someone",
                       none, some "a_b", some "message", true, some 5, 0⟩]⟩
       0 (some "u") 6).status = 200 ∧
    (putMarkNotificationRead
       ⟨[], [], [], [⟨0, some "u", "new_message", "New Message", "hi", some "a", "Someone",
                       none, some "a_b", some "message", true, some 5, 0⟩]⟩
       0 (some "u") 6).success = true := by decide

/-- C10 (amended): `PUT /mark-read/:notificationId` answers 404
"Notification not found" exactly when the update modifies zero documents —
a nonexistent id, a notification owned by another user, or an already-read
notification whose stored `readAt` already equals the new timestamp.  An
already-read notification whose `readAt` differs from the new timestamp is
counted as modified (its `readAt` is rewritten) and the endpoint answers
success, not an error. -/
theorem c10_mark_notification_modified_404 (db : DB) (nid : Nat) (uid : Option String)
    (now : Nat) :
    (markNotifModified db nid uid now = 0 →
      (putMarkNotificationRead db nid uid now).status = 404 ∧
      (putMarkNotificationRead db nid uid now).success = false) ∧
    (∀ n : Notification, db.notifications.find? (notifOwnMatch nid uid) = some n →
      n.read = true → n.readAt ≠ some now →
      (putMarkNotificationRead db nid uid now).status = 200 ∧
      (putMarkNotificationRead db nid uid now).success = true) := by
  refine ⟨fun h0 => ?_, fun n hf hread hra => ?_⟩
  · simp [putMarkNotificationRead, h0]
  · have hne : updNotifRead now n ≠ n := by
      intro he
      have : n.readAt = some now := by
        rw [← he]
        rfl
      exact hra this
    have hm1 : markNotifModified db nid uid now = 1 := by
      simp [markNotifModified, hf, hne]
    simp [putMarkNotificationRead, hm1]

/-- Witness for C10 at concrete inputs: an empty store yields the 404
branch, and the already-read notification of the counterexample yields the
success branch. -/
theorem c10_witness :
    ((putMarkNotificationRead ⟨[], [], [], []⟩ 0 (some "u") 6).status = 404 ∧
      (putMarkNotificationRead ⟨[], [], [], []⟩ 0 (some "u") 6).success = false) ∧
    (putMarkNotificationRead
       ⟨[], [], [], [⟨1, some "u", "new_message", "New Message", "hi", some "a", "Someone",
                       none, some "a_b", some "message", true, some 5, 0⟩]⟩
       1 (some "u") 6).status = 200 := by
  refine ⟨?_, ?_⟩
  · exact (c10_mark_notification_modified_404 ⟨[], [], [], []⟩ 0 (some "u") 6).1 (by decide)
  · exact ((c10_mark_notification_modified_404
      ⟨[], [], [], [⟨1, some "u", "new_message", "New Message", "hi", some "a", "Someone",
                      none, some "a_b", some "message", true, some 5, 0⟩]⟩
      1 (some "u") 6).2
      ⟨1, some "u", "new_message", "New Message", "hi", some "a", "Someone",
       none, some "a_b", some "message", true, some 5, 0⟩
      (by decide) rfl (by decide)).1
